import Mathlib

/-!
Verification of the LLM Provider Gateway and Streaming Completion Engine
of the marie_chat backend.

Shallow embedding of the relevant Python source:
  - `backend/app/domain/entities/chat.py` (data model)
  - `backend/app/services/agent_provider.py` (AgentProvider)
  - `backend/app/services/provider_factory.py` (ProviderFactory, ModelRegistry)
  - `backend/app/services/llm_service.py` (LLMService._stream_completion)
  - `backend/app/sockets/chat_events.py` (process_chat_message_async,
    handle_stop_generation)

Network I/O is modelled by environments passing the remote responses as
data; everything else is translated statement by statement.
-/

namespace MarieChat

/-- JSON values, the shallow model of the Python `dict`/`list`/`str`/`int`/
`bool`/`None` values that flow through the gateway. Numbers that the claims
never inspect numerically (e.g. the temperature) are passed around as opaque
`Json` values, so an integer payload suffices. -/
inductive Json where
  | null : Json
  | bool (b : Bool) : Json
  | num (n : Int) : Json
  | str (s : String) : Json
  | arr (elems : List Json) : Json
  | obj (fields : List (String × Json)) : Json

/-- Field lookup in a JSON object's field list (Python `dict.get` on the
parsed object; parsed JSON objects have unique keys). -/
def lookupField : List (String × Json) → String → Option Json
  | [], _ => none
  | (k, v) :: rest, key => if k = key then some v else lookupField rest key

/-- `j.get? k`: Python `j.get(k)` for an object, `None`-like otherwise. -/
def Json.get? : Json → String → Option Json
  | .obj fields, key => lookupField fields key
  | _, _ => none

/-- The field list of a JSON object (empty for non-objects). -/
def Json.objFields : Json → List (String × Json)
  | .obj fields => fields
  | _ => []

/-- `ChatMessage` from `domain/entities/chat.py`. -/
structure ChatMessage where
  role : String
  content : String
deriving Repr, DecidableEq

/-- `ChatMessage.to_dict`. -/
def ChatMessage.to_dict (m : ChatMessage) : Json :=
  .obj [("role", .str m.role), ("content", .str m.content)]

/-- `ChatCompletionChunk` from `domain/entities/chat.py` (the `metadata`
field, never touched by the code under study, is omitted). -/
structure ChatCompletionChunk where
  content : String
  done : Bool := false
  model : Option String := none
  tokens_used : Option Nat := none
deriving Repr, DecidableEq

/-- `ModelInfo` from `domain/entities/chat.py` (fields the gateway reads
or writes; the remaining optional fields default to `None` throughout the
code under study and are omitted). -/
structure ModelInfo where
  id : String
  name : String
  provider : String
  description : Option String := none
  context_length : Option Nat := none
deriving Repr, DecidableEq

/-- Association-list update with Python `dict` assignment semantics:
replace the binding in place if the key exists, append otherwise. -/
def insertA {α : Type} : List (String × α) → String → α → List (String × α)
  | [], k, v => [(k, v)]
  | (k1, v1) :: rest, k, v =>
    if k1 = k then (k, v) :: rest else (k1, v1) :: insertA rest k v

/-- Association-list lookup (Python `dict` read / `in` test). -/
def lookupA {α : Type} : List (String × α) → String → Option α
  | [], _ => none
  | (k1, v1) :: rest, k => if k1 = k then some v1 else lookupA rest k

theorem lookupA_insertA_self {α : Type} (m : List (String × α)) (k : String) (v : α) :
    lookupA (insertA m k v) k = some v := by
  induction m with
  | nil => simp [insertA, lookupA]
  | cons hd tl ih =>
    obtain ⟨k1, v1⟩ := hd
    by_cases h : k1 = k
    · simp [insertA, lookupA, h]
    · simp [insertA, lookupA, h, ih]

theorem lookupA_insertA_ne {α : Type} (m : List (String × α)) (k k2 : String) (v : α)
    (h : k2 ≠ k) : lookupA (insertA m k v) k2 = lookupA m k2 := by
  induction m with
  | nil => simp [insertA, lookupA, Ne.symm h]
  | cons hd tl ih =>
    obtain ⟨k1, v1⟩ := hd
    by_cases h1 : k1 = k
    · subst h1
      simp [insertA, lookupA, Ne.symm h]
    · simp [insertA, lookupA, h1, ih]

/-! ### String primitives

Python's string operations are modelled on character lists (Python
indexes and slices by character, not byte); every helper is structurally
recursive so concrete inputs evaluate inside the kernel. -/

/-- Whether the first list is a prefix of the second. -/
def isPrefixB : List Char → List Char → Bool
  | [], _ => true
  | _ :: _, [] => false
  | a :: as, b :: bs => a == b && isPrefixB as bs

/-- Whether `needle` occurs inside `hay` as a contiguous run. -/
def isInfixB (needle : List Char) : List Char → Bool
  | [] => isPrefixB needle []
  | c :: rest => isPrefixB needle (c :: rest) || isInfixB needle rest

/-- Python `needle in hay` on strings. -/
def strContains (hay needle : String) : Bool :=
  isInfixB needle.toList hay.toList

/-- Python `s.startswith(p)`. -/
def startsWithB (s p : String) : Bool :=
  isPrefixB p.toList s.toList

/-- Python `s.endswith(p)`. -/
def endsWithB (s p : String) : Bool :=
  isPrefixB p.toList.reverse s.toList.reverse

/-- Python `s[n:]`. -/
def dropChars (s : String) (n : Nat) : String :=
  String.mk (s.toList.drop n)

/-- Python `s[:-n]`. -/
def dropRightChars (s : String) (n : Nat) : String :=
  String.mk ((s.toList.reverse.drop n).reverse)

/-- Python `c in s` for a single character. -/
def containsCharB (s : String) (c : Char) : Bool :=
  s.toList.contains c

/-- Python `str.strip()` whitespace (the ASCII whitespace that occurs on
this wire format). -/
def isPyWS (c : Char) : Bool :=
  c == ' ' || c == '\t' || c == '\n' || c == '\r' || c == '\x0b' || c == '\x0c'

/-- Python `s.strip()`. -/
def stripB (s : String) : String :=
  String.mk (((s.toList.dropWhile isPyWS).reverse.dropWhile isPyWS).reverse)

/-- Python `s.lower()`. -/
def lowerB (s : String) : String :=
  String.mk (s.toList.map Char.toLower)

/-- Python `s.replace("_", " ")`. -/
def underscoreToSpace (s : String) : String :=
  String.mk (s.toList.map (fun c => if c == '_' then ' ' else c))

/-! ## Agent provider: protocol detection and model discovery
(`services/agent_provider.py`) -/

/-- `AgentType = Literal["openai", "langserve", "unknown"]`. -/
inductive AgentType where
  | openai : AgentType
  | langserve : AgentType
  | unknown : AgentType
deriving Repr, DecidableEq

/-- The mutable state an `AgentProvider` instance carries: its
configuration plus the per-model schema and agent-type caches. -/
structure AgentState where
  base_url : String
  api_key : String := ""
  schema_cache : List (String × Json) := []
  agent_types : List (String × AgentType) := []

/-- Python `s.rstrip("/")`. -/
def rstripSlash (s : String) : String :=
  String.mk ((s.toList.reverse.dropWhile (fun c => c = '/')).reverse)

/-- The candidate invoke URL used by `_get_agent_type`:
`f"{base}/{model}/invoke" if model != "external-agent" else f"{base}/invoke"`. -/
def invoke_url (base model : String) : String :=
  if model ≠ "external-agent" then base ++ "/" ++ model ++ "/invoke"
  else base ++ "/invoke"

/-- One network probe performed by the agent provider. -/
inductive Probe where
  | getV1Models : Probe
  | optionsInvoke (url : String) : Probe
deriving Repr, DecidableEq

/-- Environment for `_get_agent_type`'s detection probes:
`v1_models` is the id list of a successful (HTTP 200) `GET base/v1/models`
(`none` when the request fails or returns non-200); `options_status` is the
status of `OPTIONS` on the candidate invoke URL (`none` when it raises). -/
structure ProbeEnv where
  v1_models : Option (List String) := none
  options_status : Option Nat := none

/-- Result of `_get_agent_type`: the agent type, the updated
`_agent_types` cache and the probes that were issued. -/
structure DetectOut where
  type : AgentType
  agent_types : List (String × AgentType)
  probes : List Probe
deriving Repr

/-- `AgentProvider._get_agent_type`: return the cached agent type, or
detect it by probing `GET base/v1/models` (OpenAI) and then `OPTIONS` on
the candidate invoke URL (LangServe, statuses 200/204/405); cache and
return `unknown` when neither probe classifies the model. -/
def get_agent_type (st : AgentState) (env : ProbeEnv) (model : String) : DetectOut :=
  match lookupA st.agent_types model with
  | some t => ⟨t, st.agent_types, []⟩
  | none =>
    let base := rstripSlash st.base_url
    let url := invoke_url base model
    let openaiHit : Bool :=
      match env.v1_models with
      | some ids => ids.contains model
      | none => false
    if openaiHit then
      ⟨.openai, insertA st.agent_types model .openai, [.getV1Models]⟩
    else
      let langserveHit : Bool :=
        match env.options_status with
        | some status => status == 200 || status == 204 || status == 405
        | none => false
      if langserveHit then
        ⟨.langserve, insertA st.agent_types model .langserve,
          [.getV1Models, .optionsInvoke url]⟩
      else
        ⟨.unknown, insertA st.agent_types model .unknown,
          [.getV1Models, .optionsInvoke url]⟩

/-- One entry of the `data` list returned by `GET base/v1/models`
(strategy 1 of `list_models`): the fields `list_models` reads, each
possibly missing. -/
structure OpenAIModelEntry where
  id : Option String := none
  name : Option String := none
  context_length : Option Nat := none
deriving Repr, DecidableEq

/-- Environment for `list_models` discovery: `v1_models_data` is the
parsed `data` list of a successful `GET base/v1/models` (`none` when the
request fails or returns non-200); `openapi_paths` is the path list of a
successful `GET base/openapi.json`. -/
structure DiscoveryEnv where
  v1_models_data : Option (List OpenAIModelEntry) := none
  openapi_paths : Option (List String) := none

/-- Strategy 1 of `list_models`: map each entry carrying an id onto a
`ModelInfo` marked `openai`, threading the `_agent_types` cache. -/
def discover_openai : List OpenAIModelEntry → List (String × AgentType) →
    List ModelInfo × List (String × AgentType)
  | [], cache => ([], cache)
  | e :: rest, cache =>
    match e.id with
    | none => discover_openai rest cache
    | some mid =>
      let nm := e.name.getD mid
      let (ms, cache2) := discover_openai rest (insertA cache mid .openai)
      ({ id := mid, name := nm, provider := "agent",
         description := some ("OpenAI-compatible agent: " ++ nm),
         context_length := some (e.context_length.getD 128000) } :: ms, cache2)

/-- Python `str.title()` restricted to ASCII letters (the model ids in
play): uppercase a letter not preceded by a letter, lowercase the rest. -/
def titleCaseGo : Bool → List Char → List Char
  | _, [] => []
  | prevAlpha, c :: rest =>
    let c1 := if c.isAlpha then (if prevAlpha then c.toLower else c.toUpper) else c
    c1 :: titleCaseGo c.isAlpha rest

/-- `mid.replace("_", " ").title()`. -/
def titleCase (s : String) : String :=
  String.mk (titleCaseGo false s.toList)

/-- Insert a string into a `≤`-sorted list. -/
def insertSorted (s : String) : List String → List String
  | [] => [s]
  | x :: xs => if s ≤ x then s :: x :: xs else x :: insertSorted s xs

/-- Python `sorted` on strings. -/
def sortStrings : List String → List String
  | [] => []
  | x :: xs => insertSorted x (sortStrings xs)

/-- Collapse the Python `set` of discovered ids (order irrelevant: the
source sorts the set before use). -/
def dedupStrings : List String → List String
  | [] => []
  | x :: xs =>
    let r := dedupStrings xs
    if x ∈ r then r else x :: r

/-- Strategy 2 of `list_models`, per OpenAPI path: a path counts when it
ends in `/invoke` and holds no path parameter; the model id is the path
with the leading `/` and the `/invoke` suffix stripped, kept if non-empty. -/
def path_to_id (path : String) : Option String :=
  if endsWithB path "/invoke" && !(containsCharB path '\x7b') then
    let mid := if startsWithB path "/" then dropRightChars (dropChars path 1) 7
               else dropRightChars path 7
    if mid ≠ "" then some mid else none
  else none

/-- The sorted set of LangServe model ids discovered from the OpenAPI
paths. -/
def langserve_ids (paths : List String) : List String :=
  sortStrings (dedupStrings (paths.filterMap path_to_id))

/-- Result of `list_models`: the model list and the updated
`_agent_types` cache. -/
structure ListModelsOut where
  models : List ModelInfo
  agent_types : List (String × AgentType)
deriving Repr

/-- The synthetic fallback model of `list_models`. -/
def external_agent_model : ModelInfo :=
  { id := "external-agent", name := "External Agent", provider := "agent",
    description := some "Custom agentic system via remote API",
    context_length := some 128000 }

/-- `AgentProvider.list_models`: empty without a base URL; otherwise
strategy 1 (OpenAI `/v1/models`, taken when it yields a non-empty `data`
list), then strategy 2 (LangServe ids from `openapi.json`, taken when
non-empty), else the single synthetic `external-agent` model cached as
`unknown`. -/
def list_models (st : AgentState) (env : DiscoveryEnv) : ListModelsOut :=
  if st.base_url = "" then ⟨[], st.agent_types⟩
  else
    let fallback : ListModelsOut :=
      ⟨[external_agent_model], insertA st.agent_types "external-agent" .unknown⟩
    let s2 : ListModelsOut :=
      match env.openapi_paths with
      | some paths =>
        let ids := langserve_ids paths
        if ids ≠ [] then
          ⟨ids.map (fun mid =>
              { id := mid, name := titleCase (underscoreToSpace mid),
                provider := "agent",
                description := some ("LangServe agent at /" ++ mid),
                context_length := some 128000 }),
            ids.foldl (fun c mid => insertA c mid .langserve) st.agent_types⟩
        else fallback
      | none => fallback
    match env.v1_models_data with
    | some entries =>
      if entries ≠ [] then
        let (ms, cache) := discover_openai entries st.agent_types
        ⟨ms, cache⟩
      else s2
    | none => s2

/-! ## Agent provider: payload shaping (`_get_input_schema`,
`_prepare_payload`) -/

/-- Result of `_get_input_schema`: the schema (or `none`), the updated
`_schema_cache`, and whether a `GET .../input_schema` request was made. -/
structure SchemaOut where
  schema : Option Json
  schema_cache : List (String × Json)
  fetched : Bool

/-- `AgentProvider._get_input_schema`: serve the cached schema, else fetch
it (`remote_schema` is the JSON of a successful HTTP 200 response, `none`
otherwise) and cache a successful result. -/
def get_input_schema (st : AgentState) (remote_schema : Option Json)
    (model : String) : SchemaOut :=
  match lookupA st.schema_cache model with
  | some s => ⟨some s, st.schema_cache, false⟩
  | none =>
    match remote_schema with
    | some s => ⟨some s, insertA st.schema_cache model s, true⟩
    | none => ⟨none, st.schema_cache, true⟩

/-- `key in properties` on the field list of the parsed schema object. -/
def containsKey (fields : List (String × Json)) (key : String) : Bool :=
  (lookupField fields key).isSome

/-- Result of `_prepare_payload`: the payload and the updated schema
cache. -/
structure PayloadOut where
  payload : Json
  schema_cache : List (String × Json)
  fetched : Bool

/-- The `{"messages": [m.to_dict() for m in messages]}` input. -/
def messagesInput (messages : List ChatMessage) : Json :=
  .obj [("messages", .arr (messages.map ChatMessage.to_dict))]

/-- `AgentProvider._prepare_payload`: resolve the input schema, then map
the conversation onto the agent's declared input shape — full history for
a `messages` property, the last message for a single property (or for
`topic`/`input`/`question`), the bare last message for a string schema,
and the history as fallback; a `config.configurable` wrapper is attached
only when the input is an object. -/
def prepare_payload (st : AgentState) (remote_schema : Option Json)
    (model : String) (messages : List ChatMessage) (temperature : Json)
    (kwargs : List (String × Json)) : PayloadOut :=
  let so := get_input_schema st remote_schema model
  let last_message : String :=
    match messages.getLast? with
    | some m => m.content
    | none => ""
  let input_data : Json :=
    match so.schema with
    | some schema =>
      let schemaTypeIs (t : String) : Bool :=
        match schema.get? "type" with
        | some (.str s) => s == t
        | _ => false
      if schemaTypeIs "object" || (schema.get? "properties").isSome then
        let properties := ((schema.get? "properties").getD (.obj [])).objFields
        if containsKey properties "messages" then messagesInput messages
        else
          match properties with
          | [(prop_name, _)] => .obj [(prop_name, .str last_message)]
          | _ =>
            if containsKey properties "topic" then .obj [("topic", .str last_message)]
            else if containsKey properties "input" then .obj [("input", .str last_message)]
            else if containsKey properties "question" then .obj [("question", .str last_message)]
            else messagesInput messages
      else if schemaTypeIs "string" then .str last_message
      else messagesInput messages
    | none => messagesInput messages
  let isObjInput : Bool :=
    match input_data with
    | .obj _ => true
    | _ => false
  let payload : Json :=
    if isObjInput then
      .obj [("input", input_data),
        ("config", .obj [("configurable", .obj (("temperature", temperature) :: kwargs))])]
    else .obj [("input", input_data)]
  ⟨payload, so.schema_cache, so.fetched⟩

/-! ## Agent provider: SSE stream normalization (`_stream_openai`,
`_stream_langserve`, `_extract_content_from_chunk`) -/

/-- `choices[0].delta.content` extraction of `_stream_openai`; `none`
models the `IndexError`/`TypeError` a malformed chunk raises (an empty
`choices` list), which escapes to the generator's `except` clause. Only
string `content` values — the wire format — carry text. -/
def openai_delta_content (data : Json) : Option String :=
  match (data.get? "choices").getD (.arr [.obj []]) with
  | .arr (c :: _) =>
    let delta := (c.get? "delta").getD (.obj [])
    match delta.get? "content" with
    | some (.str s) => some s
    | _ => some ""
  | _ => none

/-- `AgentProvider._extract_content_from_chunk`: a bare string, else the
value of the first JSON-Patch op whose path ends in `/content`, else a
top-level `content` field, else no text. -/
def extract_content_from_chunk (chunk : Json) : String :=
  match chunk with
  | .str s => s
  | .obj fields =>
    match lookupField fields "ops" with
    | some (.arr ops) =>
      let firstContent := ops.findSome? (fun op =>
        match op.get? "path" with
        | some (.str p) =>
          if endsWithB p "/content" then
            some (match op.get? "value" with
              | some (.str v) => v
              | _ => "")
          else none
        | _ => none)
      match firstContent with
      | some v => v
      | none =>
        match lookupField fields "content" with
        | some (.str s) => s
        | _ => ""
    | _ =>
      match lookupField fields "content" with
      | some (.str s) => s
      | _ => ""
  | _ => ""

/-- The SSE line loop of `_stream_openai` over the response lines:
blank and comment lines are skipped, `data: [DONE]` yields a terminal
chunk and breaks, a decodable data line yields its non-empty delta text,
and the post-loop `yield` appends one more terminal chunk; an extraction
error is converted into the two error chunks of the `except` clause.
`decode` stands for `json.loads` on the data payload (`none` = decode
error, skipped). -/
def stream_openai_lines (decode : String → Option Json) :
    List String → List ChatCompletionChunk
  | [] => [{ content := "", done := true }]
  | line :: rest =>
    if line = "" || startsWithB line ":" then stream_openai_lines decode rest
    else if startsWithB line "data: " then
      let data_str := dropChars line 6
      if stripB data_str = "[DONE]" then
        [{ content := "", done := true }, { content := "", done := true }]
      else
        match decode data_str with
        | none => stream_openai_lines decode rest
        | some data =>
          match openai_delta_content data with
          | none =>
            [{ content := "Error streaming from OpenAI agent: list index out of range",
               done := true },
             { content := "\n\nError: list index out of range", done := true }]
          | some content =>
            if content ≠ "" then
              { content := content, done := false } :: stream_openai_lines decode rest
            else stream_openai_lines decode rest
    else stream_openai_lines decode rest

/-- The SSE line loop of `_stream_langserve`, identical framing with the
tolerant `_extract_content_from_chunk` extractor (which never raises). -/
def stream_langserve_lines (decode : String → Option Json) :
    List String → List ChatCompletionChunk
  | [] => [{ content := "", done := true }]
  | line :: rest =>
    if line = "" || startsWithB line ":" then stream_langserve_lines decode rest
    else if startsWithB line "data: " then
      let data_str := dropChars line 6
      if stripB data_str = "[DONE]" then
        [{ content := "", done := true }, { content := "", done := true }]
      else
        match decode data_str with
        | none => stream_langserve_lines decode rest
        | some data =>
          let content := extract_content_from_chunk data
          if content ≠ "" then
            { content := content, done := false } :: stream_langserve_lines decode rest
          else stream_langserve_lines decode rest
    else stream_langserve_lines decode rest

/-! ## Agent provider: non-streaming calls and `chat_completion` -/

/-- A single-quote string for Python `repr`-style output. -/
def pyQuote : String := String.mk [Char.ofNat 39]

mutual

/-- Python `str()` on a value parsed from JSON (used by
`_call_langserve`'s `content = str(output)` fallback). -/
def jsonRepr : Json → String
  | .null => "None"
  | .bool b => if b then "True" else "False"
  | .num n => toString n
  | .str s => pyQuote ++ s ++ pyQuote
  | .arr elems => "[" ++ jsonReprArr elems ++ "]"
  | .obj fields => "\x7b" ++ jsonReprObj fields ++ "\x7d"

def jsonReprArr : List Json → String
  | [] => ""
  | [x] => jsonRepr x
  | x :: xs => jsonRepr x ++ ", " ++ jsonReprArr xs

def jsonReprObj : List (String × Json) → String
  | [] => ""
  | [(k, v)] => pyQuote ++ k ++ pyQuote ++ ": " ++ jsonRepr v
  | (k, v) :: xs => pyQuote ++ k ++ pyQuote ++ ": " ++ jsonRepr v ++ ", " ++ jsonReprObj xs

end

/-- `AgentProvider._call_langserve`: POST the payload to the invoke URL
and unwrap `output` (last `messages` entry's `content`, a bare string, or
`str(output)`); any exception — network failure modelled as
`Except.error`, or an unwrap error — becomes an error chunk. Exception
texts stand in for Python's `str(e)`. -/
def call_langserve (response : Except String Json) : ChatCompletionChunk :=
  match response with
  | .error e => { content := "Error calling LangServe agent: " ++ e }
  | .ok result =>
    let output := (result.get? "output").getD (.obj [])
    match output with
    | .obj fields =>
      match lookupField fields "messages" with
      | some (.arr msgs) =>
        match msgs.getLast? with
        | some (.obj mf) =>
          { content :=
              match lookupField mf "content" with
              | some (.str s) => s
              | _ => "" }
        | some _ =>
          { content := "Error calling LangServe agent: AttributeError" }
        | none =>
          { content := "Error calling LangServe agent: list index out of range" }
      | some _ => { content := "Error calling LangServe agent: TypeError" }
      | none => { content := jsonRepr output }
    | .str s => { content := s }
    | _ => { content := jsonRepr output }

/-- `AgentProvider._call_openai`: POST to `/v1/chat/completions` and
unwrap `choices[0].message.content`; exceptions become an error chunk. -/
def call_openai (response : Except String Json) : ChatCompletionChunk :=
  match response with
  | .error e => { content := "Error calling OpenAI agent: " ++ e }
  | .ok result =>
    match (result.get? "choices").getD (.arr [.obj []]) with
    | .arr (c :: _) =>
      let msg := (c.get? "message").getD (.obj [])
      { content :=
          match msg.get? "content" with
          | some (.str s) => s
          | _ => "" }
    | .arr [] => { content := "Error calling OpenAI agent: list index out of range" }
    | _ => { content := "Error calling OpenAI agent: TypeError" }

/-- The remote world `chat_completion` may touch: the detection probes,
the input-schema response, the SSE line streams of the two protocols and
the non-streaming JSON responses. -/
structure AgentEnv where
  probe : ProbeEnv
  remote_schema : Option Json
  decode : String → Option Json
  openai_stream_lines : List String
  langserve_stream_lines : List String
  openai_response : Except String Json
  invoke_response : Except String Json

/-- Result of `chat_completion`: the yielded chunks, the updated caches,
the detection probes issued, and which protocol (if any) the call was
dispatched on (`none` = the call returned before any network activity). -/
structure ChatOut where
  chunks : List ChatCompletionChunk
  agent_types : List (String × AgentType)
  schema_cache : List (String × Json)
  probes : List Probe
  dispatched : Option AgentType

/-- `AgentProvider.chat_completion`: yield a single configuration-error
chunk when no base URL is configured; otherwise detect the agent type and
dispatch on the OpenAI protocol for `openai`, or on the LangServe
protocol (after `_prepare_payload`) for `langserve` and `unknown`. -/
def chat_completion (st : AgentState) (env : AgentEnv) (model : String)
    (messages : List ChatMessage) (stream : Bool) (temperature : Json)
    (kwargs : List (String × Json)) : ChatOut :=
  if st.base_url = "" then
    ⟨[{ content := "Error: Agent Provider base URL not configured." }],
      st.agent_types, st.schema_cache, [], none⟩
  else
    let d := get_agent_type st env.probe model
    match d.type with
    | .openai =>
      if stream then
        ⟨stream_openai_lines env.decode env.openai_stream_lines,
          d.agent_types, st.schema_cache, d.probes, some .openai⟩
      else
        ⟨[call_openai env.openai_response],
          d.agent_types, st.schema_cache, d.probes, some .openai⟩
    | t =>
      let po := prepare_payload st env.remote_schema model messages temperature kwargs
      if stream then
        ⟨stream_langserve_lines env.decode env.langserve_stream_lines,
          d.agent_types, po.schema_cache, d.probes, some t⟩
      else
        ⟨[call_langserve env.invoke_response],
          d.agent_types, po.schema_cache, d.probes, some t⟩

/-! ## Provider factory: parallel health aggregation
(`ProviderFactory.get_all_health_status`) -/

/-- The dictionary a successful `health_check` call returns
(`llm_provider.py`, lines 203–211). -/
structure HealthReport where
  provider : String
  status : String
  available : Bool
  models_count : Nat
deriving Repr, DecidableEq

/-- One entry of the aggregated health map: either the report a provider
returned, or the `{"provider": name, "status": "error", "available":
False, "error": str(e)}` entry built when `future.result()` raised. -/
inductive HealthEntry where
  | report (r : HealthReport) : HealthEntry
  | failure (provider : String) (error : String) : HealthEntry
deriving Repr, DecidableEq

/-- The `status` field of a health entry. -/
def HealthEntry.status : HealthEntry → String
  | .report r => r.status
  | .failure _ _ => "error"

/-- The `error` field of a health entry (absent on success). -/
def HealthEntry.error : HealthEntry → Option String
  | .report _ => none
  | .failure _ e => some e

/-- `ProviderFactory.get_all_health_status`: one `health_check` per
registered provider (issued on a worker pool sized to the provider
count — pure aggregation, so the completion order does not affect the
keyed result, which we return in registration order); a raising check
contributes an error entry for its own key. Each provider's outcome is
passed as an `Except`: `Except.error e` models `future.result()`
raising with message `e`. -/
def get_all_health_status
    (providers : List (String × Except String HealthReport)) :
    List (String × HealthEntry) :=
  match providers with
  | [] => []
  | (name, outcome) :: rest =>
    let entry : HealthEntry :=
      match outcome with
      | .ok r => .report r
      | .error e => .failure name e
    (name, entry) :: get_all_health_status rest

/-! ## Model registry (`ModelRegistry`): TTL cache and search -/

/-- The mutable state of `ModelRegistry`: per-provider model cache and
last-refresh timestamps (seconds; the TTL comparison is unaffected by
using naturals). -/
structure RegistryState where
  model_cache : List (String × List ModelInfo)
  last_refresh : List (String × Nat)

/-- `ModelRegistry._cache_ttl` (300 s). -/
def cache_ttl : Nat := 300

/-- The cache-hit test of `list_all_models`' first loop: a cache entry
exists and `time.time() - last_refresh < ttl` (missing timestamps default
to 0). -/
def cache_hit (st : RegistryState) (now : Nat) (name : String) : Bool :=
  match lookupA st.model_cache name with
  | some _ => now - ((lookupA st.last_refresh name).getD 0) < cache_ttl
  | none => false

/-- The first loop of `list_all_models`: partition the registered
providers into cache hits (paired with their cached lists) and
`providers_to_fetch`, preserving order. -/
def partition_providers (st : RegistryState) (now : Nat) (force_refresh : Bool) :
    List String → List (String × List ModelInfo) × List String
  | [] => ([], [])
  | p :: ps =>
    let (hits, to_fetch) := partition_providers st now force_refresh ps
    if !force_refresh && cache_hit st now p then
      ((p, (lookupA st.model_cache p).getD []) :: hits, to_fetch)
    else (hits, p :: to_fetch)

/-- The fetch loop of `list_all_models` over `providers_to_fetch`: a
successful `list_models` updates the provider's cache entry and
timestamp and lands in the result; a raising fetch contributes an empty
list and leaves the registry state untouched. `fetch` passes each
provider's outcome (`Except.error` = the call raised). -/
def fetch_loop (fetch : String → Except String (List ModelInfo)) (now : Nat) :
    List String → RegistryState → List (String × List ModelInfo) × RegistryState
  | [], st => ([], st)
  | p :: ps, st =>
    match fetch p with
    | .ok models =>
      let st1 : RegistryState :=
        ⟨insertA st.model_cache p models, insertA st.last_refresh p now⟩
      let (rest, st2) := fetch_loop fetch now ps st1
      ((p, models) :: rest, st2)
    | .error _ =>
      let (rest, st2) := fetch_loop fetch now ps st
      ((p, []) :: rest, st2)

/-- Result of `list_all_models`: the merged provider→models map, the
updated registry state, and the providers that were actually fetched. -/
structure ListAllOut where
  all_models : List (String × List ModelInfo)
  state : RegistryState
  fetched : List String

/-- `ModelRegistry.list_all_models`: serve fresh cache entries, fetch the
rest (concurrently in the source; pure aggregation keyed by provider, so
completion order does not affect the keyed result), merge. -/
def list_all_models (st : RegistryState) (providers : List String)
    (fetch : String → Except String (List ModelInfo)) (now : Nat)
    (force_refresh : Bool) : ListAllOut :=
  let (hits, to_fetch) := partition_providers st now force_refresh providers
  if to_fetch = [] then ⟨hits, st, []⟩
  else
    let (fetched_models, st1) := fetch_loop fetch now to_fetch st
    ⟨hits ++ fetched_models, st1, to_fetch⟩

/-- The match test of `search_models`: case-insensitive substring of the
query in the model's name, id, or (truthy, i.e. non-empty) description. -/
def model_matches (query_lower : String) (m : ModelInfo) : Bool :=
  strContains (lowerB m.name) query_lower ||
  strContains (lowerB m.id) query_lower ||
  (match m.description with
   | some d => d ≠ "" && strContains (lowerB d) query_lower
   | none => false)

/-- Result of `search_models`: the matches plus the registry state and
fetch set of the underlying `list_all_models` call. -/
structure SearchOut where
  results : List (String × ModelInfo)
  state : RegistryState
  fetched : List String

/-- `ModelRegistry.search_models`: call `list_all_models()` (with its
default `force_refresh=False`) and filter the merged map by the
case-insensitive match on name, id and description. -/
def search_models (st : RegistryState) (providers : List String)
    (fetch : String → Except String (List ModelInfo)) (now : Nat)
    (query : String) : SearchOut :=
  let out := list_all_models st providers fetch now false
  let query_lower := lowerB query
  let results :=
    (out.all_models.map (fun pm =>
      (pm.2.filter (model_matches query_lower)).map (fun m => (pm.1, m)))).flatten
  ⟨results, out.state, out.fetched⟩

/-! ## Completion orchestrator (`LLMService._stream_completion`) -/

/-- One dictionary yielded by `_stream_completion`: the per-chunk event
(`content`/`done`/`model`/`tokens_used`) or the special follow-ups event
(`content=""`, `done=True`, `follow_ups`). -/
structure StreamEvent where
  content : String
  done : Bool
  model : Option String := none
  tokens_used : Option Nat := none
  follow_ups : Option (List String) := none
deriving Repr, DecidableEq

/-- One `save_message(conversation_id, user_id, role="assistant", ...)`
call issued by `_stream_completion` (the metadata the claims read). -/
structure SavedMessage where
  role : String
  content : String
  tokens_used : Nat
  follow_ups : List String
deriving Repr, DecidableEq

/-- The chunk loop of `_stream_completion` (lines 912–1000 of
`llm_service.py`), with the provider's chunk sequence as a list and
`generate_follow_ups` — a separate network call — abstracted as a
function of the accumulated assistant text. Returns the yielded events
and the `save_message` calls in order. On each chunk: accumulate, yield;
on a `done` chunk: generate follow-ups, save, yield the follow-ups event
if any, mark `saved`. After the loop: if nothing was saved and the
buffer is non-empty, the defensive final flush saves it. -/
def stream_completion_loop (follow_ups_for : String → List String) :
    String → Nat → Bool → List ChatCompletionChunk →
    List StreamEvent × List SavedMessage
  | full_content, total_tokens, saved, [] =>
    if saved = false ∧ full_content ≠ "" then
      let fus := follow_ups_for full_content
      ((if fus ≠ [] then
          [{ content := "", done := true, follow_ups := some fus }]
        else []),
       [{ role := "assistant", content := full_content,
          tokens_used := total_tokens, follow_ups := fus }])
    else ([], [])
  | full_content, total_tokens, saved, chunk :: rest =>
    let full1 := full_content ++ chunk.content
    let total1 := chunk.tokens_used.getD total_tokens
    let ev : StreamEvent :=
      { content := chunk.content, done := chunk.done,
        model := chunk.model, tokens_used := chunk.tokens_used }
    if chunk.done then
      let fus := follow_ups_for full1
      let (evs, saves) := stream_completion_loop follow_ups_for full1 total1 true rest
      (ev :: ((if fus ≠ [] then
                [{ content := "", done := true, follow_ups := some fus }]
              else []) ++ evs),
       { role := "assistant", content := full1,
         tokens_used := total1, follow_ups := fus } :: saves)
    else
      let (evs, saves) := stream_completion_loop follow_ups_for full1 total1 saved rest
      (ev :: evs, saves)

/-- `LLMService._stream_completion` after provider resolution: run the
chunk loop from the empty buffer. -/
def stream_completion (follow_ups_for : String → List String)
    (chunks : List ChatCompletionChunk) :
    List StreamEvent × List SavedMessage :=
  stream_completion_loop follow_ups_for "" 0 false chunks

/-! ## Realtime delivery bridge (`sockets/chat_events.py`) -/

/-- One item the orchestrator's generator produces inside
`process_chat_message_async`'s `async for`: a chunk dictionary, or an
exception raised while producing the next item. -/
inductive GenItem where
  | chunk (content : String) (done : Bool) (follow_ups : Option (List String)) : GenItem
  | genError (msg : String) : GenItem
deriving Repr, DecidableEq

/-- A Socket.IO event emitted to the conversation room. -/
inductive SocketEvent where
  | stream_start (conversation_id : String) : SocketEvent
  | stream_chunk (conversation_id : String) (content : String) (done : Bool) : SocketEvent
  | stream_end (conversation_id : String) (message : Option String) : SocketEvent
  | error_event (message : String) : SocketEvent
deriving Repr, DecidableEq

/-- Whether `conversation_id in stopped_generations` holds at the
`i`-th loop check: the `stop_generation` handler only ever adds the id,
so once it is registered — after `k` iterations have run — every later
check sees it. `none` = never registered during the turn. -/
def stop_flag (stop_at : Option Nat) (i : Nat) : Bool :=
  match stop_at with
  | some k => decide (k ≤ i)
  | none => false

/-- The chunk-forwarding loop of `process_chat_message_async` (lines
267–283): obtain the next item (an exception while producing it
propagates), check the stop flag and break, else accumulate the content
and emit a `stream_chunk` to the room. Returns the emitted events, the
accumulated `full_content`, and the propagated exception if any. -/
def forward_loop (cid : String) (stop_at : Option Nat) :
    Nat → String → List GenItem → List SocketEvent × String × Option String
  | _, full_content, [] => ([], full_content, none)
  | i, full_content, item :: rest =>
    match item with
    | .genError msg => ([], full_content, some msg)
    | .chunk content done _ =>
      if stop_flag stop_at i then ([], full_content, none)
      else
        let r := forward_loop cid stop_at (i + 1) (full_content ++ content) rest
        (SocketEvent.stream_chunk cid content done :: r.1, r.2)

/-- Python `set.discard` on the stopped-generations set (keyed by
conversation id). -/
def discard_id (s : List String) (cid : String) : List String :=
  s.filter (fun x => x ≠ cid)

/-- The streaming path of `process_chat_message_async` plus its
`finally` clause: discard any stale stop flag, emit `stream_start`, run
the forwarding loop, then either emit the error event (when the
generator raised) or fetch the persisted message (`db_last_assistant`;
a synthesized fallback from the accumulated text when the lookup finds
nothing) and emit `stream_end`; the `finally` clause discards the
conversation's stop flag on every path. `stop_at` is the iteration
count after which a concurrent `stop_generation` registered the id
(which `handle_stop_generation` adds to the set). Returns the emitted
events and the final stopped-generations set. -/
def process_chat_turn (cid : String) (stop_at : Option Nat)
    (items : List GenItem) (db_last_assistant : Option String)
    (stopped0 : List String) : List SocketEvent × List String :=
  let s1 := discard_id stopped0 cid
  let during := match stop_at with | some _ => s1 ++ [cid] | none => s1
  let (evs, full_content, exn) := forward_loop cid stop_at 0 "" items
  let events :=
    match exn with
    | some msg =>
      SocketEvent.stream_start cid :: evs ++
        [SocketEvent.error_event ("Error processing message: " ++ msg)]
    | none =>
      let last_message : Option String :=
        match db_last_assistant with
        | some m => some m
        | none => if full_content ≠ "" then some full_content else none
      SocketEvent.stream_start cid :: evs ++ [SocketEvent.stream_end cid last_message]
  (events, discard_id during cid)

/-! ## Claim theorems -/

/-- The parsed form of the OpenAI-style SSE payload
`{"choices":[{"delta":{"content":"Hi"}}]}`. -/
def openai_demo_json : Json :=
  .obj [("choices", .arr [.obj [("delta", .obj [("content", .str "Hi")])]])]

/-- The raw data payload of that SSE line. -/
def openai_demo_payload : String :=
  "\x7b\"choices\":[\x7b\"delta\":\x7b\"content\":\"Hi\"\x7d\x7d]\x7d"

/-- `json.loads` on the demo stream's payloads. -/
def openai_demo_decode (s : String) : Option Json :=
  if s = openai_demo_payload then some openai_demo_json else none

/-- The SSE line sequence of the claimed input
`data: {"choices":[{"delta":{"content":"Hi"}}]}\n\ndata: [DONE]\n\n`. -/
def openai_demo_lines : List String :=
  ["data: " ++ openai_demo_payload, "", "data: [DONE]", ""]

/-- Claim C2 (code_bug evidence): on the OpenAI-style input
`data: {"choices":[{"delta":{"content":"Hi"}}]}` followed by
`data: [DONE]`, `_stream_openai` yields the `"Hi"` chunk and then TWO
terminal `done=true` chunks, not exactly one: the `[DONE]` branch yields
a terminal chunk and `break`s, after which the unconditional post-loop
"ensure final done signal" `yield` fires again. -/
theorem stream_openai_emits_two_terminal_done_chunks :
    stream_openai_lines openai_demo_decode openai_demo_lines =
      [{ content := "Hi", done := false },
       { content := "", done := true },
       { content := "", done := true }] ∧
    ((stream_openai_lines openai_demo_decode openai_demo_lines).filter
        (fun c => c.done)).length = 2 := by
  constructor <;> decide

/-- Claim C1 (code_bug evidence): when the adapter's chunk stream carries
two `done=true` chunks — which `_stream_openai`/`_stream_langserve`
produce on every explicitly `[DONE]`-terminated stream — the orchestrator
`_stream_completion` calls `save_message` twice for the turn: the
`if chunk.done:` save block carries no `not saved` guard, so the
assistant message is persisted once per `done` chunk, violating the
at-most-once half of the claim. -/
theorem stream_completion_saves_twice_on_double_done :
    (stream_completion (fun _ => [])
        [{ content := "Hi", done := true }, { content := "", done := true }]).2 =
      [{ role := "assistant", content := "Hi", tokens_used := 0, follow_ups := [] },
       { role := "assistant", content := "Hi", tokens_used := 0, follow_ups := [] }] ∧
    ((stream_completion (fun _ => [])
        [{ content := "Hi", done := true }, { content := "", done := true }]).2).length = 2 := by
  constructor <;> rfl

/-- Shared fact: `_get_agent_type` returns any cached classification
as-is, with no probe and no cache change. -/
theorem get_agent_type_cached (st : AgentState) (env : ProbeEnv) (model : String)
    (t : AgentType) (h : lookupA st.agent_types model = some t) :
    get_agent_type st env model = ⟨t, st.agent_types, []⟩ := by
  simp [get_agent_type, h]

/-- Claim C3 counterexample: with the synthetic `external-agent` model
cached as `unknown` (exactly the state `list_models`' fallback leaves
behind) and an environment in which the `OPTIONS` probe would answer 405
and classify the model as `langserve`, a subsequent `_get_agent_type`
call issues NO probe at all and simply returns the cached `unknown`,
while the same call on an empty cache would have detected `langserve`:
the claimed call-time re-detection for `unknown` models does not exist. -/
theorem get_agent_type_reuses_cached_unknown :
    (get_agent_type
        { base_url := "http://agent.example",
          agent_types := [("external-agent", .unknown)] }
        { v1_models := none, options_status := some 405 }
        "external-agent").probes = [] ∧
    (get_agent_type
        { base_url := "http://agent.example",
          agent_types := [("external-agent", .unknown)] }
        { v1_models := none, options_status := some 405 }
        "external-agent").type = .unknown ∧
    (get_agent_type
        { base_url := "http://agent.example", agent_types := [] }
        { v1_models := none, options_status := some 405 }
        "external-agent").type = .langserve := by
  refine ⟨rfl, rfl, rfl⟩

/-- Claim C3 (amended): when neither discovery probe succeeds,
`list_models` falls back to the single synthetic `external-agent` model
cached as `unknown`; protocol detection (`GET /v1/models` filtered by id,
then `OPTIONS` against the candidate invoke URL) runs at
`chat_completion` time only for a model id with no cached classification —
a cached classification, `unknown` included, is reused without any
probe. -/
theorem list_models_fallback_and_detection_only_when_uncached :
    (∀ (st : AgentState) (env : DiscoveryEnv),
      st.base_url ≠ "" →
      (env.v1_models_data = none ∨ env.v1_models_data = some []) →
      (match env.openapi_paths with
       | some paths => langserve_ids paths = []
       | none => True) →
      list_models st env =
        ⟨[external_agent_model], insertA st.agent_types "external-agent" .unknown⟩) ∧
    (∀ (st : AgentState) (env : ProbeEnv) (model : String) (t : AgentType),
      lookupA st.agent_types model = some t →
      get_agent_type st env model = ⟨t, st.agent_types, []⟩) ∧
    (∀ (st : AgentState) (env : ProbeEnv) (model : String),
      lookupA st.agent_types model = none →
      (get_agent_type st env model).probes = [Probe.getV1Models] ∨
      (get_agent_type st env model).probes =
        [Probe.getV1Models,
         Probe.optionsInvoke (invoke_url (rstripSlash st.base_url) model)]) := by
  refine ⟨?_, ?_, ?_⟩
  · intro st env hbase hv1 hpaths
    cases hp : env.openapi_paths with
    | none => rcases hv1 with h | h <;> simp [list_models, hbase, h, hp]
    | some paths =>
      simp only [hp] at hpaths
      rcases hv1 with h | h <;> simp [list_models, hbase, h, hp, hpaths]
  · intro st env model t h
    simp [get_agent_type, h]
  · intro st env model h
    simp only [get_agent_type, h]
    cases hov : (match env.v1_models with
      | some ids => ids.contains model
      | none => false) with
    | true => simp [hov]
    | false =>
      cases hlv : (match env.options_status with
        | some status => status == 200 || status == 204 || status == 405
        | none => false) with
      | true => simp [hov, hlv]
      | false => simp [hov, hlv]

/-- Claim C8: protocol detection is idempotent — once a model id has a
cached classification, every later `chat_completion` call for it uses
the cached type, issues no detection probe, and leaves the type cache
unchanged. -/
theorem chat_completion_no_reprobe_when_cached
    (st : AgentState) (env : AgentEnv) (model : String)
    (messages : List ChatMessage) (stream : Bool) (temperature : Json)
    (kwargs : List (String × Json)) (t : AgentType)
    (hbase : st.base_url ≠ "")
    (h : lookupA st.agent_types model = some t) :
    (chat_completion st env model messages stream temperature kwargs).probes = [] ∧
    (chat_completion st env model messages stream temperature kwargs).agent_types =
      st.agent_types ∧
    (chat_completion st env model messages stream temperature kwargs).dispatched =
      some t := by
  have hd : get_agent_type st env.probe model = ⟨t, st.agent_types, []⟩ := by
    simp [get_agent_type, h]
  cases t <;> simp [chat_completion, hbase, hd] <;> cases stream <;> simp

/-- An inert remote environment for concrete `chat_completion` calls:
every probe fails and every stream is empty. -/
def demo_env : AgentEnv :=
  { probe := ⟨none, none⟩, remote_schema := none,
    decode := fun _ => none, openai_stream_lines := [],
    langserve_stream_lines := [], openai_response := .error "down",
    invoke_response := .error "down" }

/-- Witness state for the cached-detection claims: `agent-a` is already
classified. -/
def demo_cached_state : AgentState :=
  { base_url := "http://agent.example",
    agent_types := [("agent-a", .openai)] }

/-- Witness for claim C3's amended theorem: the fallback result on a
concrete dead environment, the cached reuse at a concrete cache, and the
uncached probe sequence at an empty cache. -/
theorem list_models_fallback_and_detection_only_when_uncached_witness :
    (list_models { base_url := "http://agent.example" } ⟨none, none⟩ =
      ⟨[external_agent_model], [("external-agent", .unknown)]⟩) ∧
    (get_agent_type demo_cached_state ⟨none, some 405⟩ "agent-a" =
      ⟨.openai, [("agent-a", .openai)], []⟩) ∧
    ((get_agent_type { base_url := "http://agent.example" } ⟨none, some 405⟩
        "agent-a").probes = [Probe.getV1Models] ∨
     (get_agent_type { base_url := "http://agent.example" } ⟨none, some 405⟩
        "agent-a").probes =
       [Probe.getV1Models,
        Probe.optionsInvoke (invoke_url (rstripSlash "http://agent.example") "agent-a")]) :=
  ⟨list_models_fallback_and_detection_only_when_uncached.1
      { base_url := "http://agent.example" } ⟨none, none⟩
      (by decide) (Or.inl rfl) trivial,
   list_models_fallback_and_detection_only_when_uncached.2.1
      demo_cached_state ⟨none, some 405⟩ "agent-a" .openai rfl,
   list_models_fallback_and_detection_only_when_uncached.2.2
      { base_url := "http://agent.example" } ⟨none, some 405⟩ "agent-a" rfl⟩

/-- Witness for claim C8's theorem: a second call for the already
classified `agent-a` issues no probe and keeps the cache. -/
theorem chat_completion_no_reprobe_when_cached_witness :
    (chat_completion demo_cached_state demo_env "agent-a" [] true .null []).probes = [] ∧
    (chat_completion demo_cached_state demo_env "agent-a" [] true .null []).agent_types =
      demo_cached_state.agent_types ∧
    (chat_completion demo_cached_state demo_env "agent-a" [] true .null []).dispatched =
      some .openai :=
  chat_completion_no_reprobe_when_cached demo_cached_state demo_env "agent-a" [] true
    .null [] .openai (by decide) rfl

/-- Claim C9: for a graph-protocol model whose resolved input schema is
an object, `_prepare_payload` maps the latest (user) message's content
onto a single exposed property by name, while a schema exposing a
`messages` property receives the full message history. -/
theorem prepare_payload_schema_mapping
    (st : AgentState) (remote_schema : Option Json) (model : String)
    (ms : List ChatMessage) (text : String) (temperature : Json)
    (kwargs : List (String × Json)) (schema : Json)
    (props : List (String × Json))
    (hschema : (get_input_schema st remote_schema model).schema = some schema)
    (hprops : schema.get? "properties" = some (.obj props)) :
    (∀ p v, props = [(p, v)] → p ≠ "messages" →
      (prepare_payload st remote_schema model (ms ++ [⟨"user", text⟩]) temperature
          kwargs).payload.get? "input" = some (.obj [(p, .str text)])) ∧
    (containsKey props "messages" = true →
      (prepare_payload st remote_schema model (ms ++ [⟨"user", text⟩]) temperature
          kwargs).payload.get? "input" =
        some (messagesInput (ms ++ [⟨"user", text⟩]))) := by
  constructor
  · intro p v hp hne
    subst hp
    simp only [prepare_payload, hschema, hprops]
    simp [containsKey, lookupField, Json.objFields, List.getLast?_concat,
      hne, Ne.symm hne, Json.get?]
  · intro hmem
    simp only [prepare_payload, hschema, hprops]
    simp [Json.objFields, List.getLast?_concat, hmem, messagesInput, Json.get?,
      lookupField]

/-- Witness schema exposing the single property `topic`. -/
def topic_schema : Json :=
  .obj [("type", .str "object"), ("properties", .obj [("topic", .obj [])])]

/-- Witness schema exposing a `messages` property (among others). -/
def messages_schema : Json :=
  .obj [("type", .str "object"),
        ("properties", .obj [("messages", .obj []), ("extra", .obj [])])]

/-- Witness for claim C9's theorem: with the `topic` schema cached the
payload input is `{"topic": "hello"}`; with a `messages` schema it is the
full history. -/
theorem prepare_payload_schema_mapping_witness :
    ((prepare_payload
        { base_url := "http://agent.example",
          schema_cache := [("graph", topic_schema)] }
        none "graph" ([] ++ [⟨"user", "hello"⟩]) .null []).payload.get? "input" =
      some (.obj [("topic", .str "hello")])) ∧
    ((prepare_payload
        { base_url := "http://agent.example",
          schema_cache := [("graph", messages_schema)] }
        none "graph" ([] ++ [⟨"user", "hello"⟩]) .null []).payload.get? "input" =
      some (messagesInput ([] ++ [⟨"user", "hello"⟩]))) :=
  ⟨(prepare_payload_schema_mapping
      { base_url := "http://agent.example", schema_cache := [("graph", topic_schema)] }
      none "graph" [] "hello" .null [] topic_schema [("topic", .obj [])]
      rfl rfl).1 "topic" (.obj []) rfl (by decide),
   (prepare_payload_schema_mapping
      { base_url := "http://agent.example", schema_cache := [("graph", messages_schema)] }
      none "graph" [] "hello" .null [] messages_schema
      [("messages", .obj []), ("extra", .obj [])]
      rfl rfl).2 rfl⟩

/-- Claim C10: with an empty configured base URL, `chat_completion`
yields exactly one chunk carrying the configuration-error text with
`done=False`, then stops — no terminal `done=true` chunk, no protocol
detection (no probe, type cache unchanged) and no dispatch to the
network. -/
theorem chat_completion_empty_base_url
    (st : AgentState) (env : AgentEnv) (model : String)
    (messages : List ChatMessage) (stream : Bool) (temperature : Json)
    (kwargs : List (String × Json)) (h : st.base_url = "") :
    chat_completion st env model messages stream temperature kwargs =
      ⟨[{ content := "Error: Agent Provider base URL not configured.", done := false }],
        st.agent_types, st.schema_cache, [], none⟩ := by
  simp [chat_completion, h]

/-- Witness for claim C10's theorem at a concrete unconfigured state. -/
theorem chat_completion_empty_base_url_witness :
    chat_completion { base_url := "" } demo_env "external-agent"
        [⟨"user", "hi"⟩] true .null [] =
      ⟨[{ content := "Error: Agent Provider base URL not configured.", done := false }],
        [], [], [], none⟩ :=
  chat_completion_empty_base_url { base_url := "" } demo_env "external-agent"
    [⟨"user", "hi"⟩] true .null [] rfl

/-- Concatenation of the forwarded chunk contents (the `full_content`
accumulator). -/
def concatStrings : List String → String
  | [] => ""
  | s :: rest => s ++ concatStrings rest

/-- Shared fact: with a stop signal registered after `k` forwarded
chunks, the forwarding loop emits exactly the first `k` chunk events,
accumulates exactly their contents, and raises nothing. -/
theorem forward_loop_take (cid : String) (k : Nat) :
    ∀ (chunks : List (String × Bool)) (i : Nat) (full : String),
    forward_loop cid (some k) i full
        (chunks.map fun cd => GenItem.chunk cd.1 cd.2 none) =
      ((chunks.take (k - i)).map fun cd => SocketEvent.stream_chunk cid cd.1 cd.2,
       full ++ concatStrings ((chunks.take (k - i)).map Prod.fst), none) := by
  intro chunks
  induction chunks with
  | nil => intro i full; simp [forward_loop, concatStrings]
  | cons c rest ih =>
    intro i full
    by_cases h : k ≤ i
    · have h0 : k - i = 0 := Nat.sub_eq_zero_of_le h
      simp [forward_loop, stop_flag, h, h0, concatStrings]
    · have hsub : k - i = (k - (i + 1)) + 1 := by omega
      simp [forward_loop, stop_flag, h, hsub, ih (i + 1), concatStrings,
        String.append_assoc]

/-- Claim C4: once a `stop_generation` signal is registered for the
conversation (after `k` chunks were forwarded), the forwarding loop
aborts at its next per-chunk check — the emitted trace is `stream_start`,
exactly the first `k` `stream_chunk` events and nothing after the stop,
followed by a single `stream_end` — and the conversation's stop flag is
cleared unconditionally at turn end, whether the generator completed,
was stopped, or raised. -/
theorem stop_generation_aborts_and_clears_flag :
    ∀ (cid : String) (k : Nat) (chunks : List (String × Bool))
      (db : Option String) (stopped0 : List String),
    (∃ p, (process_chat_turn cid (some k)
        (chunks.map fun cd => GenItem.chunk cd.1 cd.2 none) db stopped0).1 =
      SocketEvent.stream_start cid ::
        ((chunks.take k).map fun cd => SocketEvent.stream_chunk cid cd.1 cd.2) ++
        [SocketEvent.stream_end cid p]) ∧
    (∀ (stop_at : Option Nat) (items : List GenItem),
      cid ∉ (process_chat_turn cid stop_at items db stopped0).2) := by
  intro cid k chunks db stopped0
  constructor
  · have hfl := forward_loop_take cid k chunks 0 ""
    simp only [Nat.sub_zero] at hfl
    refine ⟨(match db with
      | some m => some m
      | none =>
        if concatStrings ((chunks.take k).map Prod.fst) ≠ "" then
          some (concatStrings ((chunks.take k).map Prod.fst))
        else none), ?_⟩
    simp [process_chat_turn, hfl, String.empty_append]
  · intro stop_at items
    simp [process_chat_turn, discard_id, List.mem_filter]

/-- Witness for claim C4's theorem at a concrete stopped turn: two
pending chunks, stop registered after the first. -/
theorem stop_generation_aborts_and_clears_flag_witness :
    (∃ p, (process_chat_turn "c1" (some 1)
        ([("a", false), ("b", false)].map fun cd => GenItem.chunk cd.1 cd.2 none)
        (some "ab") ["c1", "c9"]).1 =
      SocketEvent.stream_start "c1" ::
        (([("a", false), ("b", false)].take 1).map
          fun cd => SocketEvent.stream_chunk "c1" cd.1 cd.2) ++
        [SocketEvent.stream_end "c1" p]) ∧
    "c1" ∉ (process_chat_turn "c1" (some 1)
        [GenItem.chunk "a" false none, GenItem.genError "boom"]
        (some "ab") ["c1", "c9"]).2 :=
  ⟨(stop_generation_aborts_and_clears_flag "c1" 1 [("a", false), ("b", false)]
      (some "ab") ["c1", "c9"]).1,
   (stop_generation_aborts_and_clears_flag "c1" 1 [("a", false), ("b", false)]
      (some "ab") ["c1", "c9"]).2 (some 1)
      [GenItem.chunk "a" false none, GenItem.genError "boom"]⟩

/-- Claim C5: `get_all_health_status` returns a map keyed by exactly the
registered provider ids; each provider's entry is its own `health_check`
outcome — the raised error becomes a `status="error"` entry carrying the
error string for that provider only, and a raising provider neither
prevents nor alters any other provider's entry. -/
theorem get_all_health_status_isolation
    (ps : List (String × Except String HealthReport)) :
    ((get_all_health_status ps).map Prod.fst = ps.map Prod.fst) ∧
    (∀ name r, (ps.map Prod.fst).Nodup → (name, r) ∈ ps →
      lookupA (get_all_health_status ps) name =
        some (match r with
          | .ok h => HealthEntry.report h
          | .error e => HealthEntry.failure name e)) ∧
    (∀ name e, (HealthEntry.failure name e).status = "error" ∧
      (HealthEntry.failure name e).error = some e) := by
  refine ⟨?_, ?_, fun name e => ⟨rfl, rfl⟩⟩
  · induction ps with
    | nil => rfl
    | cons hd tl ih =>
      obtain ⟨n, r⟩ := hd
      simpa [get_all_health_status] using ih
  · induction ps with
    | nil => intro name r _ hmem; cases hmem
    | cons hd tl ih =>
      intro name r hnd hmem
      obtain ⟨n0, r0⟩ := hd
      rcases List.mem_cons.mp hmem with heq | htl
      · injection heq with h1 h2
        subst h1
        subst h2
        simp [get_all_health_status, lookupA]
      · have hnd1 : n0 ∉ tl.map Prod.fst ∧ (tl.map Prod.fst).Nodup := by
          rw [List.map_cons, List.nodup_cons] at hnd
          exact hnd
        have hne : n0 ≠ name := by
          intro hc
          refine hnd1.1 ?_
          rw [hc]
          exact List.mem_map_of_mem Prod.fst htl
        simp [get_all_health_status, lookupA, hne, ih name r hnd1.2 htl]

/-- A healthy witness report. -/
def demo_health : HealthReport :=
  { provider := "p1", status := "healthy", available := true, models_count := 2 }

/-- Witness for claim C5's theorem: with two registered providers of
which the second raises, the raising provider gets the error entry and
the healthy one keeps its report. -/
theorem get_all_health_status_isolation_witness :
    (lookupA (get_all_health_status [("p1", .ok demo_health), ("p2", .error "down")]) "p2" =
      some (HealthEntry.failure "p2" "down")) ∧
    (lookupA (get_all_health_status [("p1", .ok demo_health), ("p2", .error "down")]) "p1" =
      some (HealthEntry.report demo_health)) ∧
    ((get_all_health_status [("p1", .ok demo_health), ("p2", .error "down")]).map
        Prod.fst = ["p1", "p2"]) :=
  ⟨(get_all_health_status_isolation
      [("p1", .ok demo_health), ("p2", .error "down")]).2.1 "p2" (.error "down")
      (by decide) (List.mem_cons_of_mem _ (List.mem_cons_self _ _)),
   (get_all_health_status_isolation
      [("p1", .ok demo_health), ("p2", .error "down")]).2.1 "p1" (.ok demo_health)
      (by decide) (List.mem_cons_self _ _),
   (get_all_health_status_isolation
      [("p1", .ok demo_health), ("p2", .error "down")]).1⟩

theorem lookupA_map_mem {α : Type} (f : String → α) :
    ∀ (ps : List String) (p : String), p ∈ ps →
      lookupA (ps.map fun q => (q, f q)) p = some (f p) := by
  intro ps
  induction ps with
  | nil => intro p h; cases h
  | cons p0 rest ih =>
    intro p h
    by_cases he : p0 = p
    · subst he
      simp [lookupA]
    · rcases List.mem_cons.mp h with heq | htl
      · exact absurd heq.symm he
      · simp [lookupA, he, ih p htl]

theorem lookupA_map_not_mem {α : Type} (f : String → α) :
    ∀ (ps : List String) (p : String), p ∉ ps →
      lookupA (ps.map fun q => (q, f q)) p = none := by
  intro ps
  induction ps with
  | nil => intro p _; rfl
  | cons p0 rest ih =>
    intro p h
    have h0 : p0 ≠ p := fun hc => h (hc ▸ List.mem_cons_self p0 rest)
    have h1 : p ∉ rest := fun hc => h (List.mem_cons_of_mem p0 hc)
    simp [lookupA, h0, ih p h1]

theorem lookupA_append_some {α : Type} (xs ys : List (String × α)) (k : String)
    (v : α) (h : lookupA xs k = some v) : lookupA (xs ++ ys) k = some v := by
  induction xs with
  | nil => cases h
  | cons hd tl ih =>
    obtain ⟨k1, v1⟩ := hd
    by_cases he : k1 = k
    · simp [lookupA, he] at h ⊢
      exact h
    · simp [lookupA, he] at h ⊢
      exact ih h

theorem lookupA_append_none {α : Type} (xs ys : List (String × α)) (k : String)
    (h : lookupA xs k = none) : lookupA (xs ++ ys) k = lookupA ys k := by
  induction xs with
  | nil => rfl
  | cons hd tl ih =>
    obtain ⟨k1, v1⟩ := hd
    by_cases he : k1 = k
    · simp [lookupA, he] at h
    · simp [lookupA, he] at h ⊢
      exact ih h

/-- Shared fact: `list_all_models`' first loop splits the providers into
the cache hits (with their cached lists) and the fetch set, in order. -/
theorem partition_providers_eq (st : RegistryState) (now : Nat) :
    ∀ providers : List String,
      partition_providers st now false providers =
        ((providers.filter (fun p => cache_hit st now p)).map
            (fun p => (p, (lookupA st.model_cache p).getD [])),
         providers.filter (fun p => !(cache_hit st now p))) := by
  intro providers
  induction providers with
  | nil => rfl
  | cons p ps ih =>
    cases h : cache_hit st now p with
    | true => simp [partition_providers, h, ih, List.filter_cons]
    | false => simp [partition_providers, h, ih, List.filter_cons]

/-- Shared fact: the fetch loop's result pairs each fetched provider with
its own outcome (empty list on a raising fetch), independent of the
threaded registry state. -/
theorem fetch_loop_models (fetch : String → Except String (List ModelInfo))
    (now : Nat) :
    ∀ (ps : List String) (st : RegistryState),
      (fetch_loop fetch now ps st).1 =
        ps.map (fun q => (q, match fetch q with | .ok m => m | .error _ => [])) := by
  intro ps
  induction ps with
  | nil => intro st; rfl
  | cons p rest ih =>
    intro st
    cases hf : fetch p with
    | ok m => simp [fetch_loop, hf, ih]
    | error e => simp [fetch_loop, hf, ih]

/-- Shared fact: the fetch loop leaves cache entries and timestamps of
providers outside the fetch set untouched. -/
theorem fetch_loop_state_untouched (fetch : String → Except String (List ModelInfo))
    (now : Nat) :
    ∀ (ps : List String) (st : RegistryState) (q : String), q ∉ ps →
      lookupA (fetch_loop fetch now ps st).2.model_cache q =
        lookupA st.model_cache q ∧
      lookupA (fetch_loop fetch now ps st).2.last_refresh q =
        lookupA st.last_refresh q := by
  intro ps
  induction ps with
  | nil => intro st q _; exact ⟨rfl, rfl⟩
  | cons p rest ih =>
    intro st q h
    have hqp : q ≠ p := fun hc => h (hc ▸ List.mem_cons_self p rest)
    have hqr : q ∉ rest := fun hc => h (List.mem_cons_of_mem p hc)
    cases hf : fetch p with
    | ok m =>
      have hrec := ih ⟨insertA st.model_cache p m, insertA st.last_refresh p now⟩ q hqr
      refine ⟨?_, ?_⟩
      · simp only [fetch_loop, hf]
        rw [hrec.1]
        exact lookupA_insertA_ne st.model_cache p q m hqp
      · simp only [fetch_loop, hf]
        rw [hrec.2]
        exact lookupA_insertA_ne st.last_refresh p q now hqp
    | error e =>
      have hrec := ih st q hqr
      refine ⟨?_, ?_⟩
      · simp only [fetch_loop, hf]
        exact hrec.1
      · simp only [fetch_loop, hf]
        exact hrec.2

/-- Shared fact: a cache hit means the model cache holds an entry, and
serving it with `getD` returns exactly that entry. -/
theorem cache_hit_lookup (st : RegistryState) (now : Nat) (p : String)
    (h : cache_hit st now p = true) :
    lookupA st.model_cache p = some ((lookupA st.model_cache p).getD []) := by
  cases hl : lookupA st.model_cache p with
  | some v => rfl
  | none => rw [cache_hit, hl] at h; cases h

/-- Shared fact: the unfolded form of `list_all_models` at
`force_refresh = false`. -/
theorem list_all_models_eq (st : RegistryState) (providers : List String)
    (fetch : String → Except String (List ModelInfo)) (now : Nat) :
    list_all_models st providers fetch now false =
      (if providers.filter (fun p => !(cache_hit st now p)) = [] then
        ⟨(providers.filter (fun p => cache_hit st now p)).map
            (fun p => (p, (lookupA st.model_cache p).getD [])), st, []⟩
      else
        ⟨(providers.filter (fun p => cache_hit st now p)).map
            (fun p => (p, (lookupA st.model_cache p).getD [])) ++
          (fetch_loop fetch now
            (providers.filter (fun p => !(cache_hit st now p))) st).1,
          (fetch_loop fetch now
            (providers.filter (fun p => !(cache_hit st now p))) st).2,
          providers.filter (fun p => !(cache_hit st now p))⟩) := by
  simp only [list_all_models, partition_providers_eq st now providers]

/-- Claim C6: with `force_refresh=false`, `list_all_models` serves every
provider whose cache entry is younger than the TTL from cache without
fetching it, re-fetches exactly the providers with an expired or missing
entry, maps a provider whose fetch raises to the empty list, and leaves
the cache entry and timestamp of every non-fetched provider unchanged. -/
theorem list_all_models_ttl_cache
    (st : RegistryState) (providers : List String)
    (fetch : String → Except String (List ModelInfo)) (now : Nat) :
    ((list_all_models st providers fetch now false).fetched =
      providers.filter (fun p => !(cache_hit st now p))) ∧
    (∀ p, p ∈ providers → cache_hit st now p = true →
      lookupA (list_all_models st providers fetch now false).all_models p =
        lookupA st.model_cache p ∧
      p ∉ (list_all_models st providers fetch now false).fetched) ∧
    (∀ p e, p ∈ providers → cache_hit st now p = false → fetch p = .error e →
      lookupA (list_all_models st providers fetch now false).all_models p =
        some []) ∧
    (∀ q, q ∉ (list_all_models st providers fetch now false).fetched →
      lookupA (list_all_models st providers fetch now false).state.model_cache q =
        lookupA st.model_cache q ∧
      lookupA (list_all_models st providers fetch now false).state.last_refresh q =
        lookupA st.last_refresh q) := by
  rw [list_all_models_eq]
  by_cases hf : providers.filter (fun p => !(cache_hit st now p)) = []
  · rw [if_pos hf]
    refine ⟨hf.symm, ?_, ?_, fun q _ => ⟨rfl, rfl⟩⟩
    · intro p hp hhit
      refine ⟨?_, by simp⟩
      rw [lookupA_map_mem _ _ p (List.mem_filter.mpr ⟨hp, hhit⟩)]
      exact (cache_hit_lookup st now p hhit).symm
    · intro p e hp hhit _
      rw [List.filter_eq_nil_iff] at hf
      exact absurd (by simp [hhit]) (hf p hp)
  · rw [if_neg hf]
    refine ⟨rfl, ?_, ?_, ?_⟩
    · intro p hp hhit
      constructor
      · rw [lookupA_append_some _ _ p _
          (lookupA_map_mem _ _ p (List.mem_filter.mpr ⟨hp, hhit⟩))]
        exact (cache_hit_lookup st now p hhit).symm
      · intro hc
        have := (List.mem_filter.mp hc).2
        simp [hhit] at this
    · intro p e hp hhit hfe
      have hnot : p ∉ providers.filter (fun p => cache_hit st now p) := by
        intro hc
        have := (List.mem_filter.mp hc).2
        simp [hhit] at this
      rw [lookupA_append_none _ _ p (lookupA_map_not_mem _ _ p hnot),
        fetch_loop_models,
        lookupA_map_mem _ _ p (List.mem_filter.mpr ⟨hp, by simp [hhit]⟩), hfe]
    · intro q hq
      exact fetch_loop_state_untouched fetch now _ st q hq

/-- A witness model entry. -/
def demo_model : ModelInfo :=
  { id := "m1", name := "Model One", provider := "agent",
    description := some "A demo model" }

/-- Witness registry: provider `fresh` refreshed at t=400, provider
`stale` refreshed at t=0 (expired at t=500 under the 300 s TTL). -/
def two_provider_registry : RegistryState :=
  ⟨[("fresh", [demo_model]), ("stale", [demo_model])],
   [("fresh", 400), ("stale", 0)]⟩

/-- A fetch in which only provider `stale` raises. -/
def demo_fetch_fail_stale : String → Except String (List ModelInfo) :=
  fun p => if p = "stale" then .error "boom" else .ok [demo_model]

/-- Witness for claim C6's theorem: at t=500 only `stale` is re-fetched;
its raising fetch yields an empty list; `fresh` is served from cache and
its cache entry and timestamp are untouched. -/
theorem list_all_models_ttl_cache_witness :
    ((list_all_models two_provider_registry ["fresh", "stale"]
        demo_fetch_fail_stale 500 false).fetched =
      ["fresh", "stale"].filter
        (fun p => !(cache_hit two_provider_registry 500 p))) ∧
    (lookupA (list_all_models two_provider_registry ["fresh", "stale"]
          demo_fetch_fail_stale 500 false).all_models "fresh" =
        lookupA two_provider_registry.model_cache "fresh" ∧
      "fresh" ∉ (list_all_models two_provider_registry ["fresh", "stale"]
          demo_fetch_fail_stale 500 false).fetched) ∧
    (lookupA (list_all_models two_provider_registry ["fresh", "stale"]
        demo_fetch_fail_stale 500 false).all_models "stale" = some []) ∧
    (lookupA (list_all_models two_provider_registry ["fresh", "stale"]
          demo_fetch_fail_stale 500 false).state.model_cache "fresh" =
        lookupA two_provider_registry.model_cache "fresh" ∧
      lookupA (list_all_models two_provider_registry ["fresh", "stale"]
          demo_fetch_fail_stale 500 false).state.last_refresh "fresh" =
        lookupA two_provider_registry.last_refresh "fresh") :=
  ⟨(list_all_models_ttl_cache two_provider_registry ["fresh", "stale"]
      demo_fetch_fail_stale 500).1,
   (list_all_models_ttl_cache two_provider_registry ["fresh", "stale"]
      demo_fetch_fail_stale 500).2.1 "fresh" (by decide) (by decide),
   (list_all_models_ttl_cache two_provider_registry ["fresh", "stale"]
      demo_fetch_fail_stale 500).2.2.1 "stale" "boom" (by decide) (by decide) rfl,
   (list_all_models_ttl_cache two_provider_registry ["fresh", "stale"]
      demo_fetch_fail_stale 500).2.2.2 "fresh" (by decide)⟩

/-- The empty model registry. -/
def empty_registry : RegistryState := ⟨[], []⟩

/-- Claim C7 counterexample: a `search_models` call on a registry whose
only provider has no cache entry performs a provider fetch (through its
unconditional `list_all_models()` call) and changes the per-provider
model cache — the claimed frame condition ("never triggers a provider
fetch itself: the cache and timestamps are unchanged by a search") is
false. -/
theorem search_models_fetches_and_mutates_cache :
    ((search_models empty_registry ["p"] demo_fetch_fail_stale 0 "x").fetched =
      ["p"]) ∧
    (lookupA (search_models empty_registry ["p"] demo_fetch_fail_stale 0
        "x").state.model_cache "p" = some [demo_model]) ∧
    (lookupA empty_registry.model_cache "p" = none) := by
  refine ⟨rfl, rfl, rfl⟩

/-- Claim C7 (amended): `search_models` performs a case-insensitive
substring match of the query against each model's name, id and
(non-empty) description over the merged map returned by
`list_all_models` with its default `force_refresh=False`; it does not
force a refresh — when every provider's cache entry is fresh the
registry state is unchanged and nothing is fetched — but a provider with
a missing or expired cache entry is fetched by that underlying call,
which updates its cache entry and timestamp. -/
theorem search_models_matches_and_fetches_only_stale
    (st : RegistryState) (providers : List String)
    (fetch : String → Except String (List ModelInfo)) (now : Nat)
    (query : String) :
    (∀ pr m, (pr, m) ∈ (search_models st providers fetch now query).results →
      model_matches (lowerB query) m = true) ∧
    (∀ pr ms m,
      (pr, ms) ∈ (list_all_models st providers fetch now false).all_models →
      m ∈ ms → model_matches (lowerB query) m = true →
      (pr, m) ∈ (search_models st providers fetch now query).results) ∧
    ((∀ p, p ∈ providers → cache_hit st now p = true) →
      (search_models st providers fetch now query).state = st ∧
      (search_models st providers fetch now query).fetched = []) ∧
    ((search_models st providers fetch now query).fetched =
      providers.filter (fun p => !(cache_hit st now p))) := by
  refine ⟨?_, ?_, ?_, ?_⟩
  · intro pr m hmem
    simp only [search_models, List.mem_flatten, List.mem_map] at hmem
    obtain ⟨l, ⟨pm, hpm, rfl⟩, hml⟩ := hmem
    obtain ⟨m1, hm1, heq⟩ := List.mem_map.mp hml
    obtain ⟨_, h2⟩ := List.mem_filter.mp hm1
    injection heq with e1 e2
    subst e2
    exact h2
  · intro pr ms m hpm hm hmatch
    simp only [search_models]
    refine List.mem_flatten.mpr
      ⟨(ms.filter (model_matches (lowerB query))).map (fun m => (pr, m)), ?_, ?_⟩
    · exact List.mem_map.mpr ⟨(pr, ms), hpm, rfl⟩
    · exact List.mem_map.mpr ⟨m, List.mem_filter.mpr ⟨hm, hmatch⟩, rfl⟩
  · intro hall
    have hf : providers.filter (fun p => !(cache_hit st now p)) = [] := by
      rw [List.filter_eq_nil_iff]
      intro p hp
      simp [hall p hp]
    constructor <;> simp [search_models, list_all_models_eq, hf]
  · by_cases hf : providers.filter (fun p => !(cache_hit st now p)) = [] <;>
      simp [search_models, list_all_models_eq, hf]

/-- Witness registry for the amended C7 theorem: the single provider's
cache entry is fresh. -/
def fresh_registry : RegistryState := ⟨[("p", [demo_model])], [("p", 0)]⟩

/-- Witness for claim C7's amended theorem: a search over an all-fresh
registry leaves the state unchanged and fetches nothing, and a matching
cached model is returned by the case-insensitive match. -/
theorem search_models_matches_and_fetches_only_stale_witness :
    ((search_models fresh_registry ["p"] demo_fetch_fail_stale 0 "model").state =
        fresh_registry ∧
      (search_models fresh_registry ["p"] demo_fetch_fail_stale 0 "model").fetched =
        []) ∧
    model_matches (lowerB "model") demo_model = true :=
  ⟨(search_models_matches_and_fetches_only_stale fresh_registry ["p"]
      demo_fetch_fail_stale 0 "model").2.2.1 (by decide),
   (search_models_matches_and_fetches_only_stale fresh_registry ["p"]
      demo_fetch_fail_stale 0 "model").1 "p" demo_model (by decide)⟩

end MarieChat
